import Mathlib

/-!
Verification of the event-interpretation core of the asus-touchpad-numpad-driver
(`asus_touchpad.py`, together with the layout module `numpad_layouts/m433ia.py`).

The driver's `main_loop` consumes touchpad events (absolute x/y position reports
and finger contact transitions) and reacts by emitting virtual keyboard events,
starting/cancelling delayed gesture timers, and issuing i2c brightness commands.
This file gives a shallow embedding of that loop as a pure step function on an
explicit state record, with the loop's outputs reified as a list of `Emission`s.

Modelling conventions:
* Python integers are `ℤ`/`ℕ`.  The float comparisons `x > 0.95 * max_x` etc. are
  modelled exactly over the rationals; in the executable definitions they appear
  as the equivalent integer comparisons scaled by 100 (e.g. `95 * max_x < 100 * x`),
  and `math.floor` of a rational is `Int.fdiv` of the scaled numerator and
  denominator.  Bridging lemmas below relate these to the `⌊·⌋` formulas over `ℚ`.
* Python list indexing (`IndexError` and the negative-index wrap-around) is
  modelled by `pyGet`.
* An `OSError` raised by a `udev.write`/`udev.syn` call inside a `try` block is
  modelled by a per-event parameter `fail : Option ℕ`: `some i` means the i-th
  call of the block raises, so the calls before it have executed and the rest of
  the block (including any trailing assignment) is skipped.
* The `asyncio` tasks created by `call_later` are modelled by a per-kind slot
  `Option TaskStatus` holding the currently tracked task; overwriting the slot
  while the tracked task is still pending leaves the old task alive but
  untracked, which is recorded by bumping an orphan counter.  The timer firing
  (the task's done-callback running with `task.cancelled()` false) is an explicit
  event.
-/

namespace AsusTouchpad

/- Key codes from evdev (linux input-event-codes.h) used by the driver. -/

def KEY_5 : ℕ := 6
def KEY_BACKSPACE : ℕ := 14
def KEY_LEFTSHIFT : ℕ := 42
def KEY_KPASTERISK : ℕ := 55
def KEY_NUMLOCK : ℕ := 69
def KEY_KP7 : ℕ := 71
def KEY_KP8 : ℕ := 72
def KEY_KP9 : ℕ := 73
def KEY_KPMINUS : ℕ := 74
def KEY_KP4 : ℕ := 75
def KEY_KP5 : ℕ := 76
def KEY_KP6 : ℕ := 77
def KEY_KPPLUS : ℕ := 78
def KEY_KP1 : ℕ := 79
def KEY_KP2 : ℕ := 80
def KEY_KP3 : ℕ := 81
def KEY_KP0 : ℕ := 82
def KEY_KPDOT : ℕ := 83
def KEY_KPENTER : ℕ := 96
def KEY_KPSLASH : ℕ := 98
def KEY_KPEQUAL : ℕ := 117
def KEY_PLAYPAUSE : ℕ := 164

/-- Static configuration of one driver session: the touchpad extents read at
startup, the fields of the layout module (`cols`, `rows`, `top_offset`, `keys`)
and the percentage-key command line argument.  Here `top_offset` is the exact rational
`top_num / top_den` (the m433ia module's `0.3` is `3 / 10`). -/
structure Config where
  max_x : ℤ
  max_y : ℤ
  cols : ℤ
  rows : ℤ
  top_num : ℤ
  top_den : ℤ
  keys : List (List ℕ)
  percentage_key : ℕ
deriving DecidableEq

/-- The test `(x > 0.95 * max_x) and (y < 0.09 * max_y)` guarding the numlock
corner (lines 242 and 310 of `asus_touchpad.py`), written as the equivalent
integer comparisons scaled by 100. -/
def inNumlockZone (cfg : Config) (x y : ℤ) : Bool :=
  decide (95 * cfg.max_x < 100 * x) && decide (100 * y < 9 * cfg.max_y)

/-- The test `(x < 0.06 * max_x) and (y < 0.07 * max_y)` guarding the custom
action corner (lines 254 and 316), scaled by 100. -/
def inCustomZone (cfg : Config) (x y : ℤ) : Bool :=
  decide (100 * x < 6 * cfg.max_x) && decide (100 * y < 7 * cfg.max_y)

/-- Column computation `col = math.floor(model_layout.cols * x / (max_x+1))` (line 329). -/
def colOf (cfg : Config) (x : ℤ) : ℤ :=
  Int.fdiv (cfg.cols * x) (cfg.max_x + 1)

/-- Row computation `row = math.floor((model_layout.rows * y / max_y) - top_offset)` (line 330),
computed over a common denominator. -/
def rowOf (cfg : Config) (y : ℤ) : ℤ :=
  Int.fdiv (cfg.rows * y * cfg.top_den - cfg.top_num * cfg.max_y) (cfg.max_y * cfg.top_den)

/-- Python list indexing `l[i]` with an `ℤ` index: a negative index counts from
the end of the list (`l[-1]` is the last element); an index that is out of range
even after that adjustment raises `IndexError`, modelled as `none`. -/
def pyGet {α : Type} (l : List α) (i : ℤ) : Option α :=
  let j := if i < 0 then i + l.length else i
  if 0 ≤ j then l[j.toNat]? else none

/-- Lookup `model_layout.keys[row][col]` with `IndexError` as `none` (lines 336-341). -/
def lookupKey (cfg : Config) (row col : ℤ) : Option ℕ :=
  (pyGet cfg.keys row).bind fun r => pyGet r col

/-- Status of the currently tracked `asyncio` task of one gesture kind. -/
inductive TaskStatus
  | pending
  | done
deriving DecidableEq

/-- The two gesture kinds that use a delayed-activation timer. -/
inductive Gesture
  | numlock
  | custom
deriving DecidableEq

/-- Observable outputs of one step of the loop.  Each constructor corresponds to
one call site in the source: the four `udev.write`/`udev.syn` sites of the key
press/release paths, timer creation/cancellation (`call_later` / `task.cancel`),
the `i2ctransfer` subprocess call with its brightness byte, the numlock LED key
write of `activate_numlock`/`deactivate_numlock`, `touchpad.grab`/`ungrab`, the
custom key pulse of `launch_custom_action`, and the two log statements of the
`except OSError` handlers. -/
inductive Emission
  | pressShift
  | pressKey (k : ℕ)
  | releaseShift
  | releaseKey (k : ℕ)
  | syn
  | timerStart (g : Gesture)
  | timerCancel (g : Gesture)
  | i2cCmd (v : ℕ)
  | numlockLed (lit : Bool)
  | grab
  | ungrab
  | customPress
  | customRelease
  | logError
  | logWarning
deriving DecidableEq

/-- Brightness bytes `BRIGHT_VAL = [hex(val) for val in [31, 24, 1]]` (line 127). -/
def BRIGHT_VAL : List ℕ := [31, 24, 1]

/-- The brightness byte sent for level `b` (`BRIGHT_VAL[brightness]`). -/
def brightVal (b : ℕ) : ℕ := BRIGHT_VAL.getD b 0

/-- Function `change_brightness` (lines 130-138): increment the level mod
`len(BRIGHT_VAL)`, issue the i2c command with the new value, return the new
level. -/
def change_brightness (b : ℕ) : ℕ × List Emission :=
  let b' := (b + 1) % BRIGHT_VAL.length
  (b', [Emission.i2cCmd (brightVal b')])

/-- Function `activate_numlock` (lines 141-150): numlock LED key down, syn, grab the
touchpad, i2c command with the current brightness level. -/
def activate_numlock (b : ℕ) : List Emission :=
  [Emission.numlockLed true, Emission.syn, Emission.grab, Emission.i2cCmd (brightVal b)]

/-- Function `deactivate_numlock` (lines 153-161): numlock LED key up, syn, ungrab,
i2c command with brightness byte `0x00`. -/
def deactivate_numlock : List Emission :=
  [Emission.numlockLed false, Emission.syn, Emission.ungrab, Emission.i2cCmd 0]

/-- Function `launch_custom_action` (lines 164-173): a down-then-up pulse of the custom
key (its `except OSError: pass` swallows any failure). -/
def launch_custom_action : List Emission :=
  [Emission.customPress, Emission.syn, Emission.customRelease, Emission.syn]

/-- A `try` block consisting of consecutive emitting calls: with `fail = some i`
(and `i` within the block) the calls before `i` have executed, call `i` raises
`OSError` and the `except` handler logs `onFail`; the second component tells
whether the block ran to completion (so that trailing assignments inside the
`try` happen). -/
def tryCalls (calls : List Emission) (onFail : Emission) (fail : Option ℕ) :
    List Emission × Bool :=
  match fail with
  | none => (calls, true)
  | some i => if i < calls.length then (calls.take i ++ [onFail], false) else (calls, true)

/-- The mutable state of `main_loop` (lines 225-235).  The `*_task` fields hold
the tracked task of each gesture kind; `*_orphans` counts tasks that were still
pending when their handle was overwritten by a new `call_later` (such tasks stay
alive but can no longer be cancelled by the loop). -/
structure MachineState where
  numlock : Bool
  x : ℤ
  y : ℤ
  brightness : ℕ
  button_pressed : Option ℕ
  numlock_pressed : Bool
  numlock_task : Option TaskStatus
  custom_key_pressed : Bool
  custom_action_task : Option TaskStatus
  numlock_orphans : ℕ
  custom_orphans : ℕ
deriving DecidableEq

/-- Python truthiness of the `Optional[int]` variable `button_pressed`:
`None` and the key code `0` are both falsy. -/
def truthy : Option ℕ → Bool
  | none => false
  | some k => decide (k ≠ 0)

/-- The events `main_loop` reacts to: the two absolute position codes, the two
`BTN_TOOL_FINGER` transitions, and the done-callbacks of the tracked gesture
tasks running after their delay (with `task.cancelled()` false). -/
inductive Event
  | posX (v : ℤ)
  | posY (v : ℤ)
  | fingerDown
  | fingerUp
  | numlockTimerFire
  | customTimerFire
deriving DecidableEq

/-- The `key_up` branch (lines 278-304).  Note that in the source the statement
`button_pressed = None` is the last statement inside the `try` block, after the
two writes and the `syn`: it only runs when all three calls succeed. -/
def stepUp (s : MachineState) (fail : Option ℕ) : MachineState × List Emission :=
  if s.numlock_pressed then
    ({ s with numlock_pressed := false, numlock_task := none },
     match s.numlock_task with
     | some TaskStatus.pending => [Emission.timerCancel Gesture.numlock]
     | _ => [])
  else if s.custom_key_pressed then
    ({ s with custom_key_pressed := false, custom_action_task := none },
     match s.custom_action_task with
     | some TaskStatus.pending => [Emission.timerCancel Gesture.custom]
     | _ => [])
  else
    match s.button_pressed with
    | some k =>
      if k = 0 then (s, [])
      else
        let r := tryCalls [Emission.releaseShift, Emission.releaseKey k, Emission.syn]
          Emission.logError fail
        (if r.2 then { s with button_pressed := none } else s, r.1)
    | none => (s, [])

/-- The `key_down and not button_pressed` branch (lines 306-355).  In the grid
case `button_pressed` is assigned from the layout table before the `try` block,
so it keeps its new value even when a write fails. -/
def stepDown (cfg : Config) (s : MachineState) (fail : Option ℕ) :
    MachineState × List Emission :=
  if truthy s.button_pressed then (s, [])
  else if inNumlockZone cfg s.x s.y then
    ({ s with numlock_pressed := true,
              numlock_task := some TaskStatus.pending,
              numlock_orphans := s.numlock_orphans +
                (if s.numlock_task = some TaskStatus.pending then 1 else 0) },
     [Emission.timerStart Gesture.numlock])
  else if inCustomZone cfg s.x s.y then
    if s.numlock then
      let r := change_brightness s.brightness
      ({ s with brightness := r.1 }, r.2)
    else
      ({ s with custom_key_pressed := true,
                custom_action_task := some TaskStatus.pending,
                custom_orphans := s.custom_orphans +
                  (if s.custom_action_task = some TaskStatus.pending then 1 else 0) },
       [Emission.timerStart Gesture.custom])
  else if !s.numlock then (s, [])
  else
    let col := colOf cfg s.x
    let row := rowOf cfg s.y
    if row < 0 then (s, [])
    else
      match lookupKey cfg row col with
      | none => (s, [])
      | some k0 =>
        let k := if k0 = KEY_5 then cfg.percentage_key else k0
        let calls := (if k = cfg.percentage_key then [Emission.pressShift] else []) ++
          [Emission.pressKey k, Emission.syn]
        let r := tryCalls calls Emission.logWarning fail
        ({ s with button_pressed := some k }, r.1)

/-- Callback `trigger_numpad` (lines 238-248) running as the done-callback of the
tracked numlock task after its delay, with `task.cancelled()` false; a no-op
when no tracked task is pending. -/
def stepNumlockFire (cfg : Config) (s : MachineState) : MachineState × List Emission :=
  match s.numlock_task with
  | some TaskStatus.pending =>
    if inNumlockZone cfg s.x s.y then
      if s.numlock then
        ({ s with numlock := false, numlock_task := some TaskStatus.done },
         deactivate_numlock)
      else
        ({ s with numlock := true, numlock_task := some TaskStatus.done },
         activate_numlock s.brightness)
    else ({ s with numlock_task := some TaskStatus.done }, [])
  | _ => (s, [])

/-- Callback `trigger_custom_action` (lines 251-256) running as the done-callback of the
tracked custom-action task after its delay, with `task.cancelled()` false. -/
def stepCustomFire (cfg : Config) (s : MachineState) : MachineState × List Emission :=
  match s.custom_action_task with
  | some TaskStatus.pending =>
    if inCustomZone cfg s.x s.y then
      ({ s with custom_action_task := some TaskStatus.done }, launch_custom_action)
    else ({ s with custom_action_task := some TaskStatus.done }, [])
  | _ => (s, [])

/-- One iteration of the event loop body (lines 261-355) on one filtered event. -/
def step (cfg : Config) (s : MachineState) (e : Event) (fail : Option ℕ) :
    MachineState × List Emission :=
  match e with
  | Event.posX v => ({ s with x := v }, [])
  | Event.posY v => ({ s with y := v }, [])
  | Event.fingerUp => stepUp s fail
  | Event.fingerDown => stepDown cfg s fail
  | Event.numlockTimerFire => stepNumlockFire cfg s
  | Event.customTimerFire => stepCustomFire cfg s

/-- The state of `main_loop` right after its local variable initialisation
(lines 225-235): everything zero / `False` / `None`. -/
def initState : MachineState :=
  { numlock := false, x := 0, y := 0, brightness := 0, button_pressed := none,
    numlock_pressed := false, numlock_task := none,
    custom_key_pressed := false, custom_action_task := none,
    numlock_orphans := 0, custom_orphans := 0 }

/-- Run the loop body over a list of events, each paired with its I/O failure
behaviour, collecting all emissions in order. -/
def run (cfg : Config) (s : MachineState) :
    List (Event × Option ℕ) → MachineState × List Emission
  | [] => (s, [])
  | (e, f) :: rest =>
    let r := step cfg s e f
    let r' := run cfg r.1 rest
    (r'.1, r.2 ++ r'.2)

/-- The key grid of `numpad_layouts/m433ia.py`. -/
def m433iaKeys : List (List ℕ) :=
  [[KEY_KP7, KEY_KP8, KEY_KP9, KEY_KPSLASH, KEY_BACKSPACE],
   [KEY_KP4, KEY_KP5, KEY_KP6, KEY_KPASTERISK, KEY_BACKSPACE],
   [KEY_KP1, KEY_KP2, KEY_KP3, KEY_KPMINUS, KEY_5],
   [KEY_KP0, KEY_KPDOT, KEY_KPENTER, KEY_KPPLUS, KEY_KPEQUAL]]

/-- The m433ia layout (`cols = 5`, `rows = 4`, `top_offset = 0.3`) with the
touchpad extents used by the spec scenarios (`max_x = 1000`, `max_y = 600`) and
the default percentage key (`ecodes.KEY_5`). -/
def cfgM433 : Config :=
  { max_x := 1000, max_y := 600, cols := 5, rows := 4,
    top_num := 3, top_den := 10, keys := m433iaKeys, percentage_key := KEY_5 }

/- Bridging lemmas between the executable integer arithmetic and the exact
rational formulas of the source's float expressions. -/

/-- Floor division agrees with the rational floor for a positive divisor. -/
theorem fdiv_eq_floor (a b : ℤ) (hb : 0 < b) : Int.fdiv a b = ⌊(a : ℚ) / (b : ℚ)⌋ := by
  lift b to ℕ using hb.le
  have h1 : ((b : ℤ) : ℚ) = ((b : ℕ) : ℚ) := by push_cast; ring
  rw [h1, Rat.floor_intCast_div_natCast a b, Int.fdiv_eq_ediv _ (by positivity)]

/-- The executable numlock-corner test is exactly
`x > 0.95 * max_x and y < 0.09 * max_y`. -/
theorem inNumlockZone_iff (cfg : Config) (x y : ℤ) :
    inNumlockZone cfg x y = true ↔
      ((95 : ℚ) / 100 * (cfg.max_x : ℚ) < (x : ℚ) ∧
       (y : ℚ) < (9 : ℚ) / 100 * (cfg.max_y : ℚ)) := by
  have h100 : (0 : ℚ) < 100 := by norm_num
  simp only [inNumlockZone, Bool.and_eq_true, decide_eq_true_eq]
  rw [div_mul_eq_mul_div, div_mul_eq_mul_div, div_lt_iff₀ h100, lt_div_iff₀ h100]
  constructor
  · rintro ⟨h1, h2⟩
    exact ⟨by exact_mod_cast (by linarith : (95 * cfg.max_x : ℤ) < x * 100),
           by exact_mod_cast (by linarith : (y * 100 : ℤ) < 9 * cfg.max_y)⟩
  · rintro ⟨h1, h2⟩
    have h1' : (95 * cfg.max_x : ℤ) < x * 100 := by exact_mod_cast h1
    have h2' : (y * 100 : ℤ) < 9 * cfg.max_y := by exact_mod_cast h2
    exact ⟨by linarith, by linarith⟩

/-- The executable action-corner test is exactly
`x < 0.06 * max_x and y < 0.07 * max_y`. -/
theorem inCustomZone_iff (cfg : Config) (x y : ℤ) :
    inCustomZone cfg x y = true ↔
      ((x : ℚ) < (6 : ℚ) / 100 * (cfg.max_x : ℚ) ∧
       (y : ℚ) < (7 : ℚ) / 100 * (cfg.max_y : ℚ)) := by
  have h100 : (0 : ℚ) < 100 := by norm_num
  simp only [inCustomZone, Bool.and_eq_true, decide_eq_true_eq]
  rw [div_mul_eq_mul_div, div_mul_eq_mul_div, lt_div_iff₀ h100, lt_div_iff₀ h100]
  constructor
  · rintro ⟨h1, h2⟩
    exact ⟨by exact_mod_cast (by linarith : (x * 100 : ℤ) < 6 * cfg.max_x),
           by exact_mod_cast (by linarith : (y * 100 : ℤ) < 7 * cfg.max_y)⟩
  · rintro ⟨h1, h2⟩
    have h1' : (x * 100 : ℤ) < 6 * cfg.max_x := by exact_mod_cast h1
    have h2' : (y * 100 : ℤ) < 7 * cfg.max_y := by exact_mod_cast h2
    exact ⟨by linarith, by linarith⟩

/-- The executable column computation is the floor formula of line 329. -/
theorem colOf_eq_floor (cfg : Config) (x : ℤ) (h : 0 < cfg.max_x + 1) :
    colOf cfg x = ⌊(cfg.cols : ℚ) * (x : ℚ) / ((cfg.max_x : ℚ) + 1)⌋ := by
  rw [colOf, fdiv_eq_floor _ _ h]
  congr 1
  push_cast
  ring

/-- The executable row computation is the floor formula of line 330. -/
theorem rowOf_eq_floor (cfg : Config) (y : ℤ) (hy : 0 < cfg.max_y) (ht : 0 < cfg.top_den) :
    rowOf cfg y =
      ⌊(cfg.rows : ℚ) * (y : ℚ) / (cfg.max_y : ℚ) - (cfg.top_num : ℚ) / (cfg.top_den : ℚ)⌋ := by
  rw [rowOf, fdiv_eq_floor _ _ (by positivity)]
  congr 1
  have hy' : (cfg.max_y : ℚ) ≠ 0 := by exact_mod_cast hy.ne.symm
  have ht' : (cfg.top_den : ℚ) ≠ 0 := by exact_mod_cast ht.ne.symm
  push_cast
  field_simp
  ring

/-- Claim C7: on the m433ia layout (`columns = 5`, `rows = 4`, `top_offset = 0.3`)
with extents `max_x = 1000`, `max_y = 600`, the grid mapping computes
`col = ⌊columns * x / (max_x + 1)⌋` and `row = ⌊rows * y / max_y - top_offset⌋`;
a touch at `x = 500`, `y = 200` yields `row = 1`, `col = 2` and presses
`keys[1][2]` (KP6). -/
theorem C7_grid_mapping_scenario :
    colOf cfgM433 500 = ⌊(5 : ℚ) * 500 / (1000 + 1)⌋ ∧
    rowOf cfgM433 200 = ⌊(4 : ℚ) * 200 / 600 - 3 / 10⌋ ∧
    colOf cfgM433 500 = 2 ∧ rowOf cfgM433 200 = 1 ∧
    lookupKey cfgM433 1 2 = some KEY_KP6 ∧
    (run cfgM433 { initState with numlock := true }
      [(Event.posX 500, none), (Event.posY 200, none), (Event.fingerDown, none)]).1.button_pressed
      = some KEY_KP6 ∧
    (run cfgM433 { initState with numlock := true }
      [(Event.posX 500, none), (Event.posY 200, none), (Event.fingerDown, none)]).2
      = [Emission.pressKey KEY_KP6, Emission.syn] := by
  refine ⟨?_, ?_, by decide, by decide, by decide, by decide, by decide⟩
  · rw [colOf_eq_floor cfgM433 500 (by decide)]
    norm_num [cfgM433]
  · rw [rowOf_eq_floor cfgM433 200 (by decide) (by decide)]
    norm_num [cfgM433]

/-- The state reached after a finger-down at `(500, 200)` with the numpad
active: the KP6 key is held (`button_pressed = 77`). -/
def heldKP6State : MachineState :=
  (run cfgM433 { initState with numlock := true }
    [(Event.posX 500, none), (Event.posY 200, none), (Event.fingerDown, none)]).1

/-- Claim C1 (code bug): when the finger-up of a held key fails with an I/O
error on the first release write, `button_pressed` is NOT cleared — the
assignment `button_pressed = None` is the last statement of the `try` block,
after the writes — so the state machine stays in `KeyHeld` and the next
finger-down is ignored, contradicting the spec's requirement that a failed
key-up still clears `active_key`. -/
theorem C1_failed_keyup_keeps_active_key :
    heldKP6State.button_pressed = some KEY_KP6 ∧
    (step cfgM433 heldKP6State Event.fingerUp (some 0)).1.button_pressed = some KEY_KP6 ∧
    (step cfgM433 heldKP6State Event.fingerUp (some 0)).2 = [Emission.logError] ∧
    step cfgM433 (step cfgM433 heldKP6State Event.fingerUp (some 0)).1 Event.fingerDown none
      = ((step cfgM433 heldKP6State Event.fingerUp (some 0)).1, []) := by decide

/-- Claim C2 counterexample: with the default configuration
(`percentage_key = KEY_5`), a down-then-up on the plain KP6 cell — whose key is
not the "5" sentinel, so per the claim no shift events may be emitted — still
emits a shift-up before the key-up (the release write of `KEY_LEFTSHIFT` at
line 298 is unconditional); and a down on the "5"-sentinel cell emits a
shift-down even though the configured percentage key is not distinct from
"5". -/
theorem C2_counterexample :
    (run cfgM433 { initState with numlock := true }
      [(Event.posX 500, none), (Event.posY 200, none),
       (Event.fingerDown, none), (Event.fingerUp, none)]).2
      = [Emission.pressKey KEY_KP6, Emission.syn,
         Emission.releaseShift, Emission.releaseKey KEY_KP6, Emission.syn] ∧
    (run cfgM433 { initState with numlock := true }
      [(Event.posX 900, none), (Event.posY 400, none), (Event.fingerDown, none)]).2
      = [Emission.pressShift, Emission.pressKey KEY_5, Emission.syn] := by decide

/-- Claim C3 (code bug): a position with `x` below zero gives a negative
column (`col = -1`), and Python's negative indexing makes
`keys[row][col]` wrap around to the last key of the row instead of raising
`IndexError`: at `x = -1`, `y = 200` with the numpad active the driver presses
`keys[1][4]` (BACKSPACE) instead of ignoring the touch, contradicting both the
claim and the source's own comment `skip invalid row and col values`. -/
theorem C3_negative_col_wraps :
    colOf cfgM433 (-1) = -1 ∧
    (run cfgM433 { initState with numlock := true }
      [(Event.posX (-1), none), (Event.posY 200, none), (Event.fingerDown, none)]).1.button_pressed
      = some KEY_BACKSPACE ∧
    (run cfgM433 { initState with numlock := true }
      [(Event.posX (-1), none), (Event.posY 200, none), (Event.fingerDown, none)]).2
      = [Emission.pressKey KEY_BACKSPACE, Emission.syn] := by decide

/-- The state reached after a finger-down in the numlock corner (`x = 990`,
`y = 10`): the numlock gesture timer is pending. -/
def pendingNumlockState : MachineState :=
  (run cfgM433 initState
    [(Event.posX 990, none), (Event.posY 10, none), (Event.fingerDown, none)]).1

/-- Claim C4 counterexample: with a numlock-corner gesture already pending, a
second finger-down event with no intervening finger-up starts a second
numlock timer (`call_later` at line 312 overwrites `numlock_task` without
cancelling the pending task, which becomes an orphan). -/
theorem C4_counterexample :
    pendingNumlockState.numlock_task = some TaskStatus.pending ∧
    (step cfgM433 pendingNumlockState Event.fingerDown none).2
      = [Emission.timerStart Gesture.numlock] ∧
    (step cfgM433 pendingNumlockState Event.fingerDown none).1.numlock_orphans = 1 := by decide

/-- Characterization of the grid branch of a finger-down (lines 329-355): when
no key is held, the position is in neither corner, numpad mode is on, the row
is nonnegative and the table lookup succeeds, `button_pressed` is assigned the
looked-up key (with the "5" sentinel substituted by the percentage key) before
the `try` block, and the block attempts a shift-down exactly when the assigned
key equals the percentage key, then the key-down and the syn. -/
theorem stepDown_grid (cfg : Config) (s : MachineState) (fail : Option ℕ)
    (hheld : truthy s.button_pressed = false)
    (hz1 : inNumlockZone cfg s.x s.y = false)
    (hz2 : inCustomZone cfg s.x s.y = false)
    (hnl : s.numlock = true)
    (hrow : ¬ rowOf cfg s.y < 0) (k0 : ℕ)
    (hk : lookupKey cfg (rowOf cfg s.y) (colOf cfg s.x) = some k0) :
    stepDown cfg s fail =
      ({ s with button_pressed := some (if k0 = KEY_5 then cfg.percentage_key else k0) },
       (tryCalls ((if (if k0 = KEY_5 then cfg.percentage_key else k0) = cfg.percentage_key
             then [Emission.pressShift] else []) ++
           [Emission.pressKey (if k0 = KEY_5 then cfg.percentage_key else k0), Emission.syn])
         Emission.logWarning fail).1) := by
  unfold stepDown
  rw [hheld, hz1, hz2, hnl]
  simp [hrow, hk]

/-- Characterization of the key-release branch of a finger-up (lines 295-304):
with no gesture pending and a nonzero key held, the `try` block attempts
shift-up, key-up, syn, and `button_pressed` is cleared exactly when the whole
block succeeded. -/
theorem stepUp_button (s : MachineState) (fail : Option ℕ) (k : ℕ)
    (hnp : s.numlock_pressed = false) (hcp : s.custom_key_pressed = false)
    (hb : s.button_pressed = some k) (hk : k ≠ 0) :
    stepUp s fail =
      ((if (tryCalls [Emission.releaseShift, Emission.releaseKey k, Emission.syn]
            Emission.logError fail).2
          then { s with button_pressed := none } else s),
       (tryCalls [Emission.releaseShift, Emission.releaseKey k, Emission.syn]
         Emission.logError fail).1) := by
  unfold stepUp
  rw [hnp, hcp, hb]
  simp [hk]

/-- Claim C2 (amended): a down-then-up on a valid grid cell with all writes
succeeding emits exactly one key-down followed by exactly one matching key-up;
a shift-down immediately precedes the key-down if and only if the emitted key
equals the configured percentage key — in particular whenever the cell holds
the "5" sentinel, even when the configured percentage key is "5" itself — and a
shift-up is emitted immediately before the key-up unconditionally. -/
theorem C2_shift_bracketing (cfg : Config) (s : MachineState)
    (hnl : s.numlock = true) (hheld : s.button_pressed = none)
    (hnp : s.numlock_pressed = false) (hcp : s.custom_key_pressed = false)
    (hz1 : inNumlockZone cfg s.x s.y = false)
    (hz2 : inCustomZone cfg s.x s.y = false)
    (hrow : ¬ rowOf cfg s.y < 0) (k0 : ℕ)
    (hk : lookupKey cfg (rowOf cfg s.y) (colOf cfg s.x) = some k0)
    (hk0 : k0 ≠ 0) (hpct : cfg.percentage_key ≠ 0) :
    (step cfg s Event.fingerDown none).2 =
      (if (if k0 = KEY_5 then cfg.percentage_key else k0) = cfg.percentage_key
        then [Emission.pressShift] else []) ++
      [Emission.pressKey (if k0 = KEY_5 then cfg.percentage_key else k0), Emission.syn] ∧
    (step cfg (step cfg s Event.fingerDown none).1 Event.fingerUp none).2 =
      [Emission.releaseShift,
       Emission.releaseKey (if k0 = KEY_5 then cfg.percentage_key else k0), Emission.syn] ∧
    (step cfg (step cfg s Event.fingerDown none).1 Event.fingerUp none).1.button_pressed
      = none := by
  have htr : truthy s.button_pressed = false := by rw [hheld]; rfl
  have hd := stepDown_grid cfg s none htr hz1 hz2 hnl hrow k0 hk
  have hkne : (if k0 = KEY_5 then cfg.percentage_key else k0) ≠ 0 := by
    split <;> assumption
  have hstep : step cfg s Event.fingerDown none = stepDown cfg s none := rfl
  have hu := stepUp_button (stepDown cfg s none).1 none
    (if k0 = KEY_5 then cfg.percentage_key else k0)
    (by rw [hd]; exact hnp) (by rw [hd]; exact hcp) (by rw [hd]) hkne
  refine ⟨?_, ?_, ?_⟩
  · rw [hstep, hd]
    rfl
  · rw [hstep]
    show (stepUp (stepDown cfg s none).1 none).2 = _
    rw [hu]
    simp [tryCalls]
  · rw [hstep]
    show (stepUp (stepDown cfg s none).1 none).1.button_pressed = none
    rw [hu]
    simp [tryCalls]

/-- Claim C9: a finger-down on a valid grid cell whose key-down emission fails
with an I/O error (the i-th call of the `try` block raises) still records the
looked-up key as held — the assignment precedes the `try` block — with the
failure logged, no retry and no rollback. -/
theorem C9_failed_keydown_still_held (cfg : Config) (s : MachineState) (i : ℕ)
    (hheld : truthy s.button_pressed = false)
    (hz1 : inNumlockZone cfg s.x s.y = false)
    (hz2 : inCustomZone cfg s.x s.y = false)
    (hnl : s.numlock = true)
    (hrow : ¬ rowOf cfg s.y < 0) (k0 : ℕ)
    (hk : lookupKey cfg (rowOf cfg s.y) (colOf cfg s.x) = some k0)
    (hi : i < 2) :
    (step cfg s Event.fingerDown (some i)).1 =
      { s with button_pressed := some (if k0 = KEY_5 then cfg.percentage_key else k0) } ∧
    Emission.logWarning ∈ (step cfg s Event.fingerDown (some i)).2 := by
  have hd := stepDown_grid cfg s (some i) hheld hz1 hz2 hnl hrow k0 hk
  have hstep : step cfg s Event.fingerDown (some i) = stepDown cfg s (some i) := rfl
  have hlen : i < ((if (if k0 = KEY_5 then cfg.percentage_key else k0) = cfg.percentage_key
      then [Emission.pressShift] else []) ++
    [Emission.pressKey (if k0 = KEY_5 then cfg.percentage_key else k0),
     Emission.syn]).length := by
    split <;> simp <;> omega
  constructor
  · rw [hstep, hd]
  · rw [hstep, hd]
    simp only [tryCalls, hlen, if_pos]
    exact List.mem_append_right _ (by simp)

/-- Claim C6: a finger-down at a position with `x > 0.95*max_x` and
`y < 0.09*max_y` takes the numlock-corner branch regardless of whether numpad
mode is enabled (the gesture is marked pending and the numlock timer starts,
and nothing else is emitted); a finger-down with `x < 0.06*max_x` and
`y < 0.07*max_y` that does not also pass the numlock-corner test — that test
has priority — takes the action-corner branch (brightness command when numpad
mode is on, custom-action timer when it is off). -/
theorem C6_corner_classification (cfg : Config) (s : MachineState) (f : Option ℕ)
    (hheld : truthy s.button_pressed = false) :
    ((95 : ℚ) / 100 * (cfg.max_x : ℚ) < (s.x : ℚ) →
     (s.y : ℚ) < (9 : ℚ) / 100 * (cfg.max_y : ℚ) →
      (step cfg s Event.fingerDown f).2 = [Emission.timerStart Gesture.numlock] ∧
      (step cfg s Event.fingerDown f).1.numlock_pressed = true) ∧
    ((s.x : ℚ) < (6 : ℚ) / 100 * (cfg.max_x : ℚ) →
     (s.y : ℚ) < (7 : ℚ) / 100 * (cfg.max_y : ℚ) →
     inNumlockZone cfg s.x s.y = false →
      (s.numlock = true →
        (step cfg s Event.fingerDown f).2
          = [Emission.i2cCmd (brightVal ((s.brightness + 1) % 3))]) ∧
      (s.numlock = false →
        (step cfg s Event.fingerDown f).2 = [Emission.timerStart Gesture.custom])) := by
  constructor
  · intro hx hy
    have hz : inNumlockZone cfg s.x s.y = true := (inNumlockZone_iff cfg s.x s.y).2 ⟨hx, hy⟩
    constructor
    · show (stepDown cfg s f).2 = _
      unfold stepDown
      rw [hheld, hz]
      simp
    · show (stepDown cfg s f).1.numlock_pressed = true
      unfold stepDown
      rw [hheld, hz]
      simp
  · intro hx hy hz1
    have hz2 : inCustomZone cfg s.x s.y = true := (inCustomZone_iff cfg s.x s.y).2 ⟨hx, hy⟩
    constructor
    · intro hnl
      show (stepDown cfg s f).2 = _
      unfold stepDown
      rw [hheld, hz1, hz2, hnl]
      simp [change_brightness, BRIGHT_VAL]
    · intro hnl
      show (stepDown cfg s f).2 = _
      unfold stepDown
      rw [hheld, hz1, hz2, hnl]
      simp

/-- Claim C8: a finger-down in the action corner while numpad mode is enabled
and no key is held immediately cycles the brightness level
(Low → Medium → High → Low, i.e. `(b + 1) % 3`) and issues the brightness-set
command with the new level; no key event is emitted and no timer is started —
the state changes in the brightness field only. -/
theorem C8_brightness_cycle (cfg : Config) (s : MachineState) (f : Option ℕ)
    (hmax : 0 ≤ cfg.max_x)
    (hx : (s.x : ℚ) < (6 : ℚ) / 100 * (cfg.max_x : ℚ))
    (hy : (s.y : ℚ) < (7 : ℚ) / 100 * (cfg.max_y : ℚ))
    (hnl : s.numlock = true) (hheld : truthy s.button_pressed = false) :
    step cfg s Event.fingerDown f =
      ({ s with brightness := (s.brightness + 1) % 3 },
       [Emission.i2cCmd (brightVal ((s.brightness + 1) % 3))]) := by
  have hz2 : inCustomZone cfg s.x s.y = true := (inCustomZone_iff cfg s.x s.y).2 ⟨hx, hy⟩
  have hmaxq : (0 : ℚ) ≤ (cfg.max_x : ℚ) := by exact_mod_cast hmax
  have hz1 : inNumlockZone cfg s.x s.y = false := by
    apply Bool.eq_false_iff.2
    intro h
    obtain ⟨h1, _⟩ := (inNumlockZone_iff cfg s.x s.y).1 h
    linarith
  show stepDown cfg s f = _
  unfold stepDown
  rw [hheld, hz1, hz2, hnl]
  simp [change_brightness, BRIGHT_VAL]

/-- Claim C10: the brightness level is mutated only by the
action-corner-with-numpad-enabled transition — every other event leaves it
unchanged — and the numlock-toggle fire with numpad mode off re-activates the
numpad issuing the indicator command parameterized with the retained brightness
level, so brightness persists across deactivation/re-activation. -/
theorem C10_brightness_frame (cfg : Config) (s : MachineState) :
    (∀ (e : Event) (f : Option ℕ),
      (step cfg s e f).1.brightness = s.brightness ∨
        (e = Event.fingerDown ∧ s.numlock = true ∧ truthy s.button_pressed = false ∧
         inCustomZone cfg s.x s.y = true ∧ inNumlockZone cfg s.x s.y = false)) ∧
    (s.numlock_task = some TaskStatus.pending → s.numlock = false →
     inNumlockZone cfg s.x s.y = true →
      step cfg s Event.numlockTimerFire none =
        ({ s with numlock := true, numlock_task := some TaskStatus.done },
         [Emission.numlockLed true, Emission.syn, Emission.grab,
          Emission.i2cCmd (brightVal s.brightness)])) := by
  constructor
  · intro e f
    cases e with
    | posX v => exact Or.inl rfl
    | posY v => exact Or.inl rfl
    | fingerUp =>
      left
      show (stepUp s f).1.brightness = s.brightness
      unfold stepUp
      repeat' split <;> try rfl
      dsimp only
      split <;> rfl
    | fingerDown =>
      show (stepDown cfg s f).1.brightness = s.brightness ∨ _
      by_cases h1 : truthy s.button_pressed = true
      · left
        unfold stepDown
        simp [h1]
      by_cases h2 : inNumlockZone cfg s.x s.y = true
      · left
        unfold stepDown
        simp [h1, h2]
      by_cases h3 : inCustomZone cfg s.x s.y = true
      · by_cases h4 : s.numlock = true
        · right
          exact ⟨rfl, h4, Bool.eq_false_iff.2 h1, h3, Bool.eq_false_iff.2 h2⟩
        · left
          unfold stepDown
          simp [h1, h2, h3, h4]
      · left
        unfold stepDown
        simp only [h1, h2, h3, Bool.false_eq_true, if_false,
          Bool.eq_false_iff.2 h1, Bool.eq_false_iff.2 h2, Bool.eq_false_iff.2 h3]
        repeat' split <;> try rfl
    | numlockTimerFire =>
      left
      show (stepNumlockFire cfg s).1.brightness = s.brightness
      unfold stepNumlockFire
      repeat' split <;> try rfl
    | customTimerFire =>
      left
      show (stepCustomFire cfg s).1.brightness = s.brightness
      unfold stepCustomFire
      repeat' split <;> try rfl
  · intro h1 h2 h3
    show stepNumlockFire cfg s = _
    unfold stepNumlockFire
    rw [h1, h3, h2]
    simp [activate_numlock]

/-- Finger contact transitions, as opposed to position updates and timer
callbacks. -/
def isContact : Event → Bool
  | Event.fingerDown => true
  | Event.fingerUp => true
  | _ => false

/-- Position updates and timer callbacks never change the held key. -/
theorem step_preserves_button (cfg : Config) (s : MachineState) (e : Event) (f : Option ℕ)
    (h : isContact e = false) :
    (step cfg s e f).1.button_pressed = s.button_pressed := by
  cases e with
  | posX v => rfl
  | posY v => rfl
  | fingerDown => simp [isContact] at h
  | fingerUp => simp [isContact] at h
  | numlockTimerFire =>
    show (stepNumlockFire cfg s).1.button_pressed = s.button_pressed
    unfold stepNumlockFire
    repeat' split <;> try rfl
  | customTimerFire =>
    show (stepCustomFire cfg s).1.button_pressed = s.button_pressed
    unfold stepCustomFire
    repeat' split <;> try rfl

/-- A run of position updates and timer callbacks never changes the held key. -/
theorem run_preserves_button (cfg : Config) :
    ∀ (es : List (Event × Option ℕ)) (s : MachineState),
      (∀ p ∈ es, isContact p.1 = false) →
      (run cfg s es).1.button_pressed = s.button_pressed := by
  intro es
  induction es with
  | nil => intro s _; rfl
  | cons p rest ih =>
    intro s h
    obtain ⟨e, f⟩ := p
    show (run cfg (step cfg s e f).1 rest).1.button_pressed = _
    rw [ih _ fun q hq => h q (List.mem_cons_of_mem _ hq),
      step_preserves_button cfg s e f (h (e, f) (List.mem_cons_self _ _))]

/-- Recognizer of a key-down emission (the write of `button_pressed` with
value 1 at line 352, as opposed to the shift modifier writes). -/
def isPressKey : Emission → Bool
  | Emission.pressKey _ => true
  | _ => false

/-- Number of key-down emissions in an output list. -/
def pressCount (l : List Emission) : ℕ := (l.filter isPressKey).length

theorem pressCount_append (a b : List Emission) :
    pressCount (a ++ b) = pressCount a + pressCount b := by
  simp [pressCount, List.filter_append]

/-- A failing `try` block emits no more key-downs than a successful one. -/
theorem pressCount_tryCalls (calls : List Emission) (onFail : Emission) (fail : Option ℕ)
    (hof : isPressKey onFail = false) :
    pressCount (tryCalls calls onFail fail).1 ≤ pressCount calls := by
  unfold tryCalls
  cases fail with
  | none => exact le_refl _
  | some i =>
    dsimp only
    split
    · rw [pressCount_append]
      have h1 : pressCount (calls.take i) ≤ pressCount calls :=
        List.Sublist.length_le (List.Sublist.filter _ (List.take_sublist i calls))
      have h2 : pressCount [onFail] = 0 := by simp [pressCount, hof]
      omega
    · exact le_refl _

/-- A successful Python indexing returns an element of the list. -/
theorem pyGet_mem {α : Type} {l : List α} {i : ℤ} {a : α} (h : pyGet l i = some a) :
    a ∈ l := by
  simp only [pyGet] at h
  by_cases hij : 0 ≤ (if i < 0 then i + (l.length : ℤ) else i)
  · rw [if_pos hij] at h
    exact List.getElem?_mem h
  · rw [if_neg hij] at h
    cases h

/-- A successful key-table lookup returns an entry of the key grid. -/
theorem lookupKey_mem {cfg : Config} {row col : ℤ} {k : ℕ}
    (h : lookupKey cfg row col = some k) : ∃ r ∈ cfg.keys, k ∈ r := by
  unfold lookupKey at h
  cases hp : pyGet cfg.keys row with
  | none => rw [hp] at h; cases h
  | some r =>
    rw [hp] at h
    exact ⟨r, pyGet_mem hp, pyGet_mem h⟩

/-- No key code of the configuration is 0 (true of every shipped layout and of
any sensible percentage-key argument; key code 0 is `KEY_RESERVED`, which Python's
truthiness test would treat like `None`). -/
def validKeys (cfg : Config) : Prop :=
  cfg.percentage_key ≠ 0 ∧ ∀ r ∈ cfg.keys, ∀ k ∈ r, k ≠ 0

/-- A finger-down either emits no key-down, or it emits at most one key-down
and leaves a (truthy) key recorded as held. -/
theorem stepDown_press_or_held (cfg : Config) (s : MachineState) (f : Option ℕ)
    (hv : validKeys cfg) :
    pressCount (step cfg s Event.fingerDown f).2 = 0 ∨
      (pressCount (step cfg s Event.fingerDown f).2 ≤ 1 ∧
       truthy (step cfg s Event.fingerDown f).1.button_pressed = true) := by
  show pressCount (stepDown cfg s f).2 = 0 ∨
    (pressCount (stepDown cfg s f).2 ≤ 1 ∧ truthy (stepDown cfg s f).1.button_pressed = true)
  unfold stepDown
  by_cases h1 : truthy s.button_pressed = true
  · left; simp [h1, pressCount]
  by_cases h2 : inNumlockZone cfg s.x s.y = true
  · left; simp [h1, h2, pressCount, isPressKey]
  by_cases h3 : inCustomZone cfg s.x s.y = true
  · by_cases h4 : s.numlock = true
    · left; simp [h1, h2, h3, h4, change_brightness, pressCount, isPressKey]
    · left; simp [h1, h2, h3, h4, pressCount, isPressKey]
  by_cases h4 : s.numlock = true
  case neg =>
    left
    simp [h1, h2, h3, h4, pressCount]
  simp only [h1, h2, h3, h4, Bool.false_eq_true, if_false, if_true,
    Bool.eq_false_iff.2 h1, Bool.eq_false_iff.2 h2, Bool.eq_false_iff.2 h3,
    Bool.not_true]
  split
  · left; simp [pressCount]
  cases hk : lookupKey cfg (rowOf cfg s.y) (colOf cfg s.x) with
  | none => left; simp [pressCount]
  | some k0 =>
    right
    dsimp only
    constructor
    · calc pressCount (tryCalls ((if (if k0 = KEY_5 then cfg.percentage_key else k0)
            = cfg.percentage_key then [Emission.pressShift] else []) ++
          [Emission.pressKey (if k0 = KEY_5 then cfg.percentage_key else k0), Emission.syn])
          Emission.logWarning f).1 ≤ _ := pressCount_tryCalls _ _ _ rfl
        _ ≤ 1 := by
          rw [pressCount_append]
          have : pressCount (if (if k0 = KEY_5 then cfg.percentage_key else k0)
              = cfg.percentage_key then [Emission.pressShift] else []) = 0 := by
            split <;> simp [pressCount, isPressKey]
          rw [this]
          simp [pressCount, isPressKey]
    · obtain ⟨r, hr, hk0⟩ := lookupKey_mem hk
      have hk0ne : k0 ≠ 0 := hv.2 r hr k0 hk0
      have : (if k0 = KEY_5 then cfg.percentage_key else k0) ≠ 0 := by
        split
        · exact hv.1
        · exact hk0ne
      simp [truthy, this]

/-- Claim C5: a finger-down while a key is already held is ignored entirely,
and two consecutive finger-down events with no intervening finger-up (any
number of position updates or timer callbacks in between) produce at most one
key-down emission in total. -/
theorem C5_second_down_ignored (cfg : Config) (s : MachineState)
    (hv : validKeys cfg)
    (mid : List (Event × Option ℕ)) (hmid : ∀ p ∈ mid, isContact p.1 = false)
    (f1 f2 : Option ℕ) :
    (∀ s' : MachineState, truthy s'.button_pressed = true →
      step cfg s' Event.fingerDown f2 = (s', [])) ∧
    pressCount (step cfg s Event.fingerDown f1).2 +
      pressCount (step cfg (run cfg (step cfg s Event.fingerDown f1).1 mid).1
        Event.fingerDown f2).2 ≤ 1 := by
  have hignore : ∀ s' : MachineState, truthy s'.button_pressed = true →
      step cfg s' Event.fingerDown f2 = (s', []) := by
    intro s' h
    show stepDown cfg s' f2 = _
    unfold stepDown
    rw [h]
    rfl
  refine ⟨hignore, ?_⟩
  rcases stepDown_press_or_held cfg s f1 hv with h0 | ⟨hle, ht⟩
  · rw [h0]
    rcases stepDown_press_or_held cfg
        (run cfg (step cfg s Event.fingerDown f1).1 mid).1 f2 hv with h2 | ⟨h2, _⟩
    · omega
    · omega
  · have hbtn : truthy (run cfg (step cfg s Event.fingerDown f1).1 mid).1.button_pressed
        = true := by
      rw [run_preserves_button cfg mid _ hmid]
      exact ht
    rw [hignore _ hbtn]
    have hz : pressCount ((run cfg (step cfg s Event.fingerDown f1).1 mid).1,
        ([] : List Emission)).2 = 0 := rfl
    omega

/-- Well-formed contact streams: finger-down events alternate with finger-up
events (the kernel input layer never reports two `BTN_TOOL_FINGER` down
transitions without an up transition in between).  The flag records whether a
finger-down may come next; position updates and timer callbacks may appear
anywhere. -/
def alternatingB : Bool → List (Event × Option ℕ) → Bool
  | _, [] => true
  | canDown, (Event.fingerDown, _) :: rest => canDown && alternatingB false rest
  | _, (Event.fingerUp, _) :: rest => alternatingB true rest
  | canDown, _ :: rest => alternatingB canDown rest

/-- Invariant of states reachable along well-formed contact streams: no orphan
timers exist, a pending tracked task of either kind implies its gesture flag is
set, and at most one gesture flag is set. -/
def Good (s : MachineState) : Prop :=
  s.numlock_orphans = 0 ∧ s.custom_orphans = 0 ∧
  (s.numlock_task = some TaskStatus.pending → s.numlock_pressed = true) ∧
  (s.custom_action_task = some TaskStatus.pending → s.custom_key_pressed = true) ∧
  (s.numlock_pressed = false ∨ s.custom_key_pressed = false)

/-- Strengthening of `Good` holding while the finger is up: neither gesture
flag is set (hence, via `Good`, neither tracked task is pending). -/
def GoodUp (s : MachineState) : Prop :=
  Good s ∧ s.numlock_pressed = false ∧ s.custom_key_pressed = false

theorem goodUp_not_pending_numlock {s : MachineState} (h : GoodUp s) :
    s.numlock_task ≠ some TaskStatus.pending := by
  intro hp
  have hx := h.1.2.2.1 hp
  rw [h.2.1] at hx
  cases hx

theorem goodUp_not_pending_custom {s : MachineState} (h : GoodUp s) :
    s.custom_action_task ≠ some TaskStatus.pending := by
  intro hp
  have hx := h.1.2.2.2.1 hp
  rw [h.2.2] at hx
  cases hx

/-- Position updates and timer callbacks preserve `GoodUp`. -/
theorem goodUp_step_nonContact (cfg : Config) {s : MachineState} (e : Event) (f : Option ℕ)
    (he : isContact e = false) (h : GoodUp s) :
    GoodUp (step cfg s e f).1 := by
  cases e with
  | posX v => exact h
  | posY v => exact h
  | fingerDown => simp [isContact] at he
  | fingerUp => simp [isContact] at he
  | numlockTimerFire =>
    show GoodUp (stepNumlockFire cfg s).1
    unfold stepNumlockFire
    cases ht : s.numlock_task with
    | none => exact h
    | some ts =>
      cases ts with
      | pending => exact absurd ht (goodUp_not_pending_numlock h)
      | done => exact h
  | customTimerFire =>
    show GoodUp (stepCustomFire cfg s).1
    unfold stepCustomFire
    cases ht : s.custom_action_task with
    | none => exact h
    | some ts =>
      cases ts with
      | pending => exact absurd ht (goodUp_not_pending_custom h)
      | done => exact h

/-- Position updates and timer callbacks preserve `Good`. -/
theorem good_step_nonContact (cfg : Config) {s : MachineState} (e : Event) (f : Option ℕ)
    (he : isContact e = false) (h : Good s) :
    Good (step cfg s e f).1 := by
  obtain ⟨h1, h2, h3, h4, h5⟩ := h
  cases e with
  | posX v => exact ⟨h1, h2, h3, h4, h5⟩
  | posY v => exact ⟨h1, h2, h3, h4, h5⟩
  | fingerDown => simp [isContact] at he
  | fingerUp => simp [isContact] at he
  | numlockTimerFire =>
    show Good (stepNumlockFire cfg s).1
    unfold stepNumlockFire
    cases ht : s.numlock_task with
    | none => exact ⟨h1, h2, by rw [ht] at h3 ⊢; exact h3, h4, h5⟩
    | some ts =>
      cases ts with
      | pending =>
        by_cases hz : inNumlockZone cfg s.x s.y = true
        · rw [if_pos hz]
          by_cases hn : s.numlock = true
          · rw [if_pos hn]
            exact ⟨h1, h2, by intro hx; exact TaskStatus.noConfusion (Option.some.inj hx),
              h4, h5⟩
          · rw [if_neg hn]
            exact ⟨h1, h2, by intro hx; exact TaskStatus.noConfusion (Option.some.inj hx),
              h4, h5⟩
        · rw [if_neg hz]
          exact ⟨h1, h2, by intro hx; exact TaskStatus.noConfusion (Option.some.inj hx),
            h4, h5⟩
      | done => exact ⟨h1, h2, by rw [ht] at h3 ⊢; exact h3, h4, h5⟩
  | customTimerFire =>
    show Good (stepCustomFire cfg s).1
    unfold stepCustomFire
    cases ht : s.custom_action_task with
    | none => exact ⟨h1, h2, h3, by rw [ht] at h4 ⊢; exact h4, h5⟩
    | some ts =>
      cases ts with
      | pending =>
        by_cases hz : inCustomZone cfg s.x s.y = true
        · rw [if_pos hz]
          exact ⟨h1, h2, h3, by intro hx; exact TaskStatus.noConfusion (Option.some.inj hx),
            h5⟩
        · rw [if_neg hz]
          exact ⟨h1, h2, h3, by intro hx; exact TaskStatus.noConfusion (Option.some.inj hx),
            h5⟩
      | done => exact ⟨h1, h2, h3, by rw [ht] at h4 ⊢; exact h4, h5⟩

/-- A finger-up from a `Good` state lands in a `GoodUp` state: whichever
pending gesture existed is cancelled and cleared. -/
theorem good_stepUp {s : MachineState} (f : Option ℕ) (h : Good s) :
    GoodUp (stepUp s f).1 := by
  obtain ⟨h1, h2, h3, h4, h5⟩ := h
  unfold stepUp
  by_cases hn : s.numlock_pressed = true
  · rw [if_pos hn]
    have hcf : s.custom_key_pressed = false := by
      rcases h5 with h5 | h5
      · rw [hn] at h5; cases h5
      · exact h5
    refine ⟨⟨h1, h2, ?_, ?_, Or.inl rfl⟩, rfl, hcf⟩
    · intro hx
      cases hx
    · intro hx
      have hy := h4 hx
      rw [hcf] at hy
      cases hy
  rw [if_neg hn]
  have hnf : s.numlock_pressed = false := Bool.eq_false_iff.2 hn
  by_cases hc : s.custom_key_pressed = true
  · rw [if_pos hc]
    refine ⟨⟨h1, h2, ?_, ?_, Or.inl hnf⟩, hnf, rfl⟩
    · intro hx
      have hy := h3 hx
      rw [hnf] at hy
      cases hy
    · intro hx
      cases hx
  rw [if_neg hc]
  have hcf : s.custom_key_pressed = false := Bool.eq_false_iff.2 hc
  cases hb : s.button_pressed with
  | none => exact ⟨⟨h1, h2, h3, h4, h5⟩, hnf, hcf⟩
  | some k =>
    dsimp only
    split
    · exact ⟨⟨h1, h2, h3, h4, h5⟩, hnf, hcf⟩
    · dsimp only
      split
      · exact ⟨⟨h1, h2, h3, h4, h5⟩, hnf, hcf⟩
      · exact ⟨⟨h1, h2, h3, h4, h5⟩, hnf, hcf⟩

/-- A finger-down from a `GoodUp` state lands in a `Good` state; in particular
a corner branch starts its timer with the same-kind task slot not pending, so
no orphan is created. -/
theorem goodUp_stepDown (cfg : Config) {s : MachineState} (f : Option ℕ) (h : GoodUp s) :
    Good (stepDown cfg s f).1 := by
  have hnp := goodUp_not_pending_numlock h
  have hcp := goodUp_not_pending_custom h
  obtain ⟨⟨h1, h2, h3, h4, h5⟩, hnf, hcf⟩ := h
  unfold stepDown
  by_cases hb : truthy s.button_pressed = true
  · rw [if_pos hb]
    exact ⟨h1, h2, h3, h4, h5⟩
  rw [if_neg hb]
  by_cases hz1 : inNumlockZone cfg s.x s.y = true
  · rw [if_pos hz1]
    refine ⟨by simp [if_neg hnp, h1], h2, fun _ => rfl, ?_, Or.inr hcf⟩
    intro hx
    exact absurd hx hcp
  rw [if_neg hz1]
  by_cases hz2 : inCustomZone cfg s.x s.y = true
  · rw [if_pos hz2]
    by_cases hn : s.numlock = true
    · rw [if_pos hn]
      exact ⟨h1, h2, h3, h4, h5⟩
    · rw [if_neg hn]
      refine ⟨h1, by simp [if_neg hcp, h2], ?_, fun _ => rfl, Or.inl hnf⟩
      intro hx
      exact absurd hx hnp
  rw [if_neg hz2]
  by_cases hn : (!s.numlock) = true
  · rw [if_pos hn]
    exact ⟨h1, h2, h3, h4, h5⟩
  rw [if_neg hn]
  dsimp only
  split
  · exact ⟨h1, h2, h3, h4, h5⟩
  split
  · exact ⟨h1, h2, h3, h4, h5⟩
  · exact ⟨h1, h2, h3, h4, h5⟩

/-- Main induction: along any well-formed contact stream, every state reached
from a phase-respecting start satisfies `Good`. -/
theorem good_run (cfg : Config) :
    ∀ (es : List (Event × Option ℕ)) (b : Bool) (s : MachineState),
      alternatingB b es = true →
      (if b = true then GoodUp s else Good s) →
      Good (run cfg s es).1 := by
  intro es
  induction es with
  | nil =>
    intro b s _ hs
    cases b with
    | true => exact (by simpa using hs : GoodUp s).1
    | false => simpa using hs
  | cons p rest ih =>
    intro b s halt hs
    obtain ⟨e, f⟩ := p
    have hgood : Good s := by
      cases b with
      | true => exact (by simpa using hs : GoodUp s).1
      | false => simpa using hs
    cases e with
    | fingerDown =>
      have hb : b = true ∧ alternatingB false rest = true := by
        simpa [alternatingB] using halt
      have hsu : GoodUp s := by
        rw [hb.1] at hs
        simpa using hs
      show Good (run cfg (step cfg s Event.fingerDown f).1 rest).1
      exact ih false _ hb.2 (by simpa using goodUp_stepDown cfg f hsu)
    | fingerUp =>
      have hr : alternatingB true rest = true := by simpa [alternatingB] using halt
      show Good (run cfg (step cfg s Event.fingerUp f).1 rest).1
      exact ih true _ hr (by simpa using good_stepUp f hgood)
    | posX v =>
      have hr : alternatingB b rest = true := by simpa [alternatingB] using halt
      show Good (run cfg (step cfg s (Event.posX v) f).1 rest).1
      refine ih b _ hr ?_
      cases b with
      | true => simpa using goodUp_step_nonContact cfg (Event.posX v) f rfl (by simpa using hs)
      | false => simpa using good_step_nonContact cfg (Event.posX v) f rfl (by simpa using hs)
    | posY v =>
      have hr : alternatingB b rest = true := by simpa [alternatingB] using halt
      show Good (run cfg (step cfg s (Event.posY v) f).1 rest).1
      refine ih b _ hr ?_
      cases b with
      | true => simpa using goodUp_step_nonContact cfg (Event.posY v) f rfl (by simpa using hs)
      | false => simpa using good_step_nonContact cfg (Event.posY v) f rfl (by simpa using hs)
    | numlockTimerFire =>
      have hr : alternatingB b rest = true := by simpa [alternatingB] using halt
      show Good (run cfg (step cfg s Event.numlockTimerFire f).1 rest).1
      refine ih b _ hr ?_
      cases b with
      | true => simpa using goodUp_step_nonContact cfg Event.numlockTimerFire f rfl (by simpa using hs)
      | false => simpa using good_step_nonContact cfg Event.numlockTimerFire f rfl (by simpa using hs)
    | customTimerFire =>
      have hr : alternatingB b rest = true := by simpa [alternatingB] using halt
      show Good (run cfg (step cfg s Event.customTimerFire f).1 rest).1
      refine ih b _ hr ?_
      cases b with
      | true => simpa using goodUp_step_nonContact cfg Event.customTimerFire f rfl (by simpa using hs)
      | false => simpa using good_step_nonContact cfg Event.customTimerFire f rfl (by simpa using hs)

/-- Claim C4 (amended): under well-formed contact streams — finger-down events
alternate with finger-up events — at most one timer is outstanding per gesture
kind: every `call_later` is issued with the same-kind task slot empty or
completed, so the orphan counters (which count timers started while a same-kind
timer was still pending) stay 0 along the whole run. -/
theorem C4_single_timer_per_kind (cfg : Config) (es : List (Event × Option ℕ))
    (h : alternatingB true es = true) :
    (run cfg initState es).1.numlock_orphans = 0 ∧
    (run cfg initState es).1.custom_orphans = 0 := by
  have himp1 : initState.numlock_task = some TaskStatus.pending →
      initState.numlock_pressed = true := by
    intro hx
    cases hx
  have himp2 : initState.custom_action_task = some TaskStatus.pending →
      initState.custom_key_pressed = true := by
    intro hx
    cases hx
  have hinit : GoodUp initState := ⟨⟨rfl, rfl, himp1, himp2, Or.inl rfl⟩, rfl, rfl⟩
  have hg : Good (run cfg initState es).1 :=
    good_run cfg es true initState h (by rw [if_pos rfl]; exact hinit)
  exact ⟨hg.1, hg.2.1⟩

/-- Witness for the amended C2 theorem: the "5"-sentinel cell at `(900, 400)`
with the default percentage key. -/
theorem C2_shift_bracketing_witness :
    (step cfgM433 { initState with numlock := true, x := 900, y := 400 }
        Event.fingerDown none).2
      = [Emission.pressShift, Emission.pressKey KEY_5, Emission.syn] ∧
    (step cfgM433 (step cfgM433 { initState with numlock := true, x := 900, y := 400 }
        Event.fingerDown none).1 Event.fingerUp none).2
      = [Emission.releaseShift, Emission.releaseKey KEY_5, Emission.syn] ∧
    (step cfgM433 (step cfgM433 { initState with numlock := true, x := 900, y := 400 }
        Event.fingerDown none).1 Event.fingerUp none).1.button_pressed = none := by
  have h := C2_shift_bracketing cfgM433 { initState with numlock := true, x := 900, y := 400 }
    (by decide) (by decide) (by decide) (by decide) (by decide) (by decide) (by decide)
    KEY_5 (by decide) (by decide) (by decide)
  simpa using h

/-- Witness for the amended C4 theorem: a well-formed down/up/down stream
through the numlock corner leaves no orphan timer. -/
theorem C4_single_timer_per_kind_witness :
    alternatingB true
        [(Event.posX 990, none), (Event.posY 10, none), (Event.fingerDown, none),
         (Event.fingerUp, none), (Event.fingerDown, none)] = true ∧
    (run cfgM433 initState
        [(Event.posX 990, none), (Event.posY 10, none), (Event.fingerDown, none),
         (Event.fingerUp, none), (Event.fingerDown, none)]).1.numlock_orphans = 0 ∧
    (run cfgM433 initState
        [(Event.posX 990, none), (Event.posY 10, none), (Event.fingerDown, none),
         (Event.fingerUp, none), (Event.fingerDown, none)]).1.custom_orphans = 0 :=
  ⟨by decide, C4_single_timer_per_kind cfgM433 _ (by decide)⟩

/-- Witness for C5: a grid press at `(500, 200)` followed, after a position
update, by a second finger-down. -/
theorem C5_second_down_ignored_witness :
    pressCount (step cfgM433 { initState with numlock := true, x := 500, y := 200 }
        Event.fingerDown none).2 +
      pressCount (step cfgM433
        (run cfgM433 (step cfgM433 { initState with numlock := true, x := 500, y := 200 }
          Event.fingerDown none).1 [(Event.posX 510, none)]).1
        Event.fingerDown none).2 ≤ 1 :=
  (C5_second_down_ignored cfgM433 { initState with numlock := true, x := 500, y := 200 }
    ⟨by decide, by decide⟩ [(Event.posX 510, none)] (by decide) none none).2

/-- Witness for C6: a finger-down at `(990, 10)` starts the numlock gesture
timer. -/
theorem C6_corner_classification_witness :
    (step cfgM433 { initState with x := 990, y := 10 } Event.fingerDown none).2
      = [Emission.timerStart Gesture.numlock] ∧
    (step cfgM433 { initState with x := 990, y := 10 }
        Event.fingerDown none).1.numlock_pressed = true :=
  (C6_corner_classification cfgM433 { initState with x := 990, y := 10 } none (by decide)).1
    (by show (95 : ℚ) / 100 * ((1000 : ℤ) : ℚ) < ((990 : ℤ) : ℚ); norm_num)
    (by show ((10 : ℤ) : ℚ) < (9 : ℚ) / 100 * ((600 : ℤ) : ℚ); norm_num)

/-- Witness for C8 (spec scenario C): with the numpad enabled, a finger-down at
`(10, 10)` cycles the brightness from level 0 to level 1 and issues the i2c
command with byte 24. -/
theorem C8_brightness_cycle_witness :
    step cfgM433 { initState with numlock := true, x := 10, y := 10 } Event.fingerDown none =
      ({ initState with numlock := true, x := 10, y := 10, brightness := 1 },
       [Emission.i2cCmd 24]) := by
  have h := C8_brightness_cycle cfgM433 { initState with numlock := true, x := 10, y := 10 }
    none (by decide)
    (by show ((10 : ℤ) : ℚ) < (6 : ℚ) / 100 * ((1000 : ℤ) : ℚ); norm_num)
    (by show ((10 : ℤ) : ℚ) < (7 : ℚ) / 100 * ((600 : ℤ) : ℚ); norm_num)
    (by decide) (by decide)
  simpa using h

/-- Witness for C9: the key-down at `(500, 200)` whose first write raises still
records KP6 as held and logs a warning. -/
theorem C9_failed_keydown_still_held_witness :
    (step cfgM433 { initState with numlock := true, x := 500, y := 200 }
        Event.fingerDown (some 0)).1 =
      { initState with numlock := true, x := 500, y := 200, button_pressed := some KEY_KP6 } ∧
    Emission.logWarning ∈ (step cfgM433 { initState with numlock := true, x := 500, y := 200 }
        Event.fingerDown (some 0)).2 := by
  have h := C9_failed_keydown_still_held cfgM433
    { initState with numlock := true, x := 500, y := 200 } 0
    (by decide) (by decide) (by decide) (by decide) (by decide) KEY_KP6 (by decide) (by decide)
  simpa using h

/-- Witness for C10: the re-activation fire from a state with brightness
level 0 issues the i2c command with byte 31 and keeps the level. -/
theorem C10_brightness_frame_witness :
    step cfgM433 { initState with x := 990, y := 10, numlock_pressed := true, numlock_task := some TaskStatus.pending } Event.numlockTimerFire none =
      ({ initState with x := 990, y := 10, numlock_pressed := true, numlock_task := some TaskStatus.done, numlock := true },
       [Emission.numlockLed true, Emission.syn, Emission.grab, Emission.i2cCmd 31]) := by
  have h := (C10_brightness_frame cfgM433 { initState with x := 990, y := 10, numlock_pressed := true, numlock_task := some TaskStatus.pending }).2 rfl rfl (by decide)
  simpa using h

end AsusTouchpad
